import Mathlib

/-
  Verification of the geometry validation and spatial-filter construction
  pipeline of `os_paw/api_utils.py`.

  Strings are modelled as `List Char` (`Str`).  Python's `str.split(sep)` is
  `splitOnChar`, `float(tok)` is `pyFloat` (exact rational semantics of plain
  decimal literals with an optional sign and an optional single decimal point;
  scientific notation, inf/nan, underscores and surrounding whitespace are
  outside the modelled fragment, and none of the verified properties depend on
  them), list indexing is `pyIndex` (raising `IndexError` out of range), and a
  raised Python exception is the `Except` error channel with a `PyError` value.
  `assert cond, msgexpr` is modelled with the message expression evaluated
  lazily, exactly as in Python.
-/

set_option maxRecDepth 8000

abbrev Str := List Char

inductive PyError where
  | assertionError (msg : String)
  | indexError
  | valueError (msg : String)
  | exception (msg : String)
  deriving DecidableEq, Repr

instance {ε α : Type _} [DecidableEq ε] [DecidableEq α] : DecidableEq (Except ε α) :=
  fun x y =>
    match x, y with
    | .ok a, .ok b =>
      if h : a = b then isTrue (by rw [h]) else isFalse (by simp [h])
    | .error a, .error b =>
      if h : a = b then isTrue (by rw [h]) else isFalse (by simp [h])
    | .ok _, .error _ => isFalse (fun hh => Except.noConfusion hh)
    | .error _, .ok _ => isFalse (fun hh => Except.noConfusion hh)

/-- Python `s.split(sep)` for a one-character separator: splits at every
occurrence, never collapsing, so the result is always nonempty and the empty
string splits to `[[]]`; this is exactly `List.splitOn`. -/
def splitOnChar (c : Char) (s : Str) : List Str :=
  s.splitOn c

/-- Python list indexing `l[i]` for a nonnegative index: `IndexError` when out
of range. -/
def pyIndex (l : List α) (i : Nat) : Except PyError α :=
  match l[i]? with
  | some x => .ok x
  | none => .error .indexError

/-- Numeric value of a string of decimal digits. -/
def digitsVal (l : Str) : Nat :=
  l.foldl (fun a c => 10 * a + (c.toNat - 48)) 0

/-- The unsigned part of `ratParse`: the digit strings around an optional
single decimal point, each required to consist of digits with at least one
digit overall. -/
def ratParseBody (neg : Bool) (rest : Str) : Option ℚ :=
  match splitOnChar '.' rest with
  | [ip] =>
    if ip ≠ [] ∧ ip.all Char.isDigit then
      some (mkRat (if neg then -(digitsVal ip : ℤ) else (digitsVal ip : ℤ)) 1)
    else none
  | [ip, fp] =>
    if (ip ++ fp) ≠ [] ∧ ip.all Char.isDigit ∧ fp.all Char.isDigit then
      let n : ℤ := (digitsVal ip : ℤ) * 10 ^ fp.length + (digitsVal fp : ℤ)
      some (mkRat (if neg then -n else n) (10 ^ fp.length))
    else none
  | _ => none

/-- Exact rational semantics of Python `float()` on a plain decimal literal:
optional sign, digit string, optional `.` and digit string, at least one digit
overall (`"1."` and `".5"` are accepted, as in Python). -/
def ratParse (s : Str) : Option ℚ :=
  match s with
  | [] => ratParseBody false []
  | c :: r =>
    if c = '-' then ratParseBody true r
    else if c = '+' then ratParseBody false r
    else ratParseBody false (c :: r)

/-- Python `float(tok)`: `ValueError` when the token is not numeric. -/
def pyFloat (tok : Str) : Except PyError ℚ :=
  match ratParse tok with
  | some q => .ok q
  | none => .error (.valueError "could not convert string to float")

/-- Python list comprehension `[f x for x in l]`: elements evaluated left to
right, the first raised exception propagating. -/
def mapME (f : α → Except PyError β) : List α → Except PyError (List β)
  | [] => .ok []
  | a :: as =>
    match f a with
    | .error e => .error e
    | .ok b =>
      match mapME f as with
      | .error e => .error e
      | .ok bs => .ok (b :: bs)

/- ----------------------------------------------------------------- -/
/- SRS registry (api_utils.py lines 14-15, 46-50)                    -/
/- ----------------------------------------------------------------- -/

def s4326 : Str := "EPSG:4326".data

def s27700 : Str := "EPSG:27700".data

def VALID_SPATIAL_REFERENCE_SYSTEMS : List Str := [s4326, s27700]

/-- Message of the `assert` in `validate_srs`; the Python f-string renders the
tuple of valid systems literally. -/
def srs_assertion_message (srs_string : Str) : String :=
  String.mk srs_string ++ " is not a valid Spatial Reference System.\n" ++
    "Valid Spatial Reference Systems are: " ++
    "('EPSG:4326', 'EPSG:27700')."

/-- `validate_srs` (api_utils.py lines 46-50). -/
def validate_srs (srs_string : Str) : Except PyError Unit :=
  if srs_string ∈ VALID_SPATIAL_REFERENCE_SYSTEMS then .ok ()
  else .error (.assertionError (srs_assertion_message srs_string))

/- ----------------------------------------------------------------- -/
/- Bounding-box validation (api_utils.py lines 92-119)               -/
/- ----------------------------------------------------------------- -/

/-- Hint text bound to `msg` in `_validate_bbox` for EPSG:4326. -/
def bboxMsg4326 : String :=
  "Format bbox as a comma-separated string of the form " ++
    "\"latitude_SW, longitude_SW, latitude_NE, longitude_NE\"."

/-- Hint text bound to `msg` in `_validate_bbox` for EPSG:27700. -/
def bboxMsg27700 : String :=
  "Format bbox as a comma-separated string of the form " ++
    "\"Easting_SW, Northing_SW, Easting_NE, Northing_NE\"."

/-- Message expression of a failing `assert`: when the local `msg` was never
bound (unreachable through the public entry points) Python raises at the use
site, which the model folds into the error value. -/
def pyAssertMsg (msg : Option String) (pre : String) : PyError :=
  match msg with
  | some m => .assertionError (pre ++ m)
  | none => .exception "NameError: name msg is not defined"

def latAssertPre (lo hi : ℚ) : String :=
  "British Latitude values must be between " ++ toString lo ++ " and " ++
    toString hi ++ ". "

def lonAssertPre (lo hi : ℚ) : String :=
  "British Longitude values must be between " ++ toString lo ++ " and " ++
    toString hi ++ ". "

/-- The condition of one `assert` of `_validate_bbox`:
`(float(l[i]) > lo and float(l[i]) < hi) and (float(l[j]) > lo and float(l[j]) < hi)`
with Python's left-to-right evaluation and short-circuiting (so `l[j]` is never
touched when the first conjunct is already false). -/
def evalPairCond (l : List Str) (i j : Nat) (lo hi : ℚ) : Except PyError Bool :=
  match pyIndex l i with
  | .error e => .error e
  | .ok t =>
    match pyFloat t with
    | .error e => .error e
    | .ok v =>
      if lo < v ∧ v < hi then
        match pyIndex l j with
        | .error e => .error e
        | .ok t2 =>
          match pyFloat t2 with
          | .error e => .error e
          | .ok w => .ok (decide (lo < w ∧ w < hi))
      else .ok false

/-- `_validate_bbox` (api_utils.py lines 92-107): positions 0 and 2 of the
comma-split are checked against `(min_y, max_y)` and positions 1 and 3 against
`(min_x, max_x)`, strictly. -/
def _validate_bbox (bbox_string : Str) (srs : Str)
    (min_x max_x min_y max_y : ℚ) : Except PyError Unit :=
  let bbox_list := splitOnChar ',' bbox_string
  let msg : Option String :=
    if srs = s4326 then some bboxMsg4326
    else if srs = s27700 then some bboxMsg27700
    else none
  match evalPairCond bbox_list 0 2 min_y max_y with
  | .error e => .error e
  | .ok false => .error (pyAssertMsg msg (latAssertPre min_y max_y))
  | .ok true =>
    match evalPairCond bbox_list 1 3 min_x max_x with
    | .error e => .error e
    | .ok false => .error (pyAssertMsg msg (lonAssertPre min_x max_x))
    | .ok true => .ok ()

/-- `validate_bbox` (api_utils.py lines 110-119). -/
def validate_bbox (bbox_string : Str) (srs : Str) : Except PyError Unit :=
  match validate_srs srs with
  | .error e => .error e
  | .ok _ =>
    if srs = s4326 then _validate_bbox bbox_string s4326 (-7) 2 49 61
    else if srs = s27700 then _validate_bbox bbox_string s27700 0 700000 0 1250000
    else .ok ()

/- ----------------------------------------------------------------- -/
/- Polygon-string validation (api_utils.py lines 126-168)            -/
/- ----------------------------------------------------------------- -/

/-- Python `max()` over a sequence: `ValueError` on an empty one. -/
def pyMax (l : List ℚ) : Except PyError ℚ :=
  match l with
  | [] => .error (.valueError "max() arg is an empty sequence")
  | h :: t => .ok (t.foldl max h)

/-- Python `min()` over a sequence: `ValueError` on an empty one. -/
def pyMin (l : List ℚ) : Except PyError ℚ :=
  match l with
  | [] => .error (.valueError "min() arg is an empty sequence")
  | h :: t => .ok (t.foldl min h)

/-- Python `list(zip(*l))`: the transpose truncated to the shortest row
(`zip` stops at the shortest argument; `zip()` of nothing is empty). -/
def pyZipStar (l : List (List ℚ)) : List (List ℚ) :=
  match l with
  | [] => []
  | r :: rs =>
    (List.range (rs.foldl (fun m row => min m row.length) r.length)).map
      (fun i => (r :: rs).map (fun row => row.getD i 0))

/-- The nested comprehension of api_utils.py line 136:
`[[float(coord) for coord in coords.split(',')] for coords in polygon_string.split(' ')]`. -/
def parse_polygon (s : Str) : Except PyError (List (List ℚ)) :=
  mapME (fun coords => mapME pyFloat (splitOnChar ',' coords)) (splitOnChar ' ' s)

/-- Hint text bound to `msg` in `_validate_polygon_string` (the same text in
both CRS branches). -/
def polyFormatMsg : String :=
  "Format polygon as a space-separated string of comma-separated coordinates the form " ++
    "\"lat1,lon1 lat2,lon2 lat3,lon3 ... latn,lonn\"."

/-- `_validate_polygon_string` (api_utils.py lines 134-155). -/
def _validate_polygon_string (polygon_string : Str) (srs : Str)
    (min_x max_x min_y max_y : ℚ) : Except PyError Unit :=
  match parse_polygon polygon_string with
  | .error e => .error e
  | .ok polygon_coords =>
    let polygon_coords_transposed := pyZipStar polygon_coords
    match pyIndex polygon_coords_transposed 0 with
    | .error e => .error e
    | .ok row0 =>
      match pyMax row0 with
      | .error e => .error e
      | .ok max_lat =>
        match pyMin row0 with
        | .error e => .error e
        | .ok min_lat =>
          match pyIndex polygon_coords_transposed 1 with
          | .error e => .error e
          | .ok row1 =>
            match pyMax row1 with
            | .error e => .error e
            | .ok max_lon =>
              match pyMin row1 with
              | .error e => .error e
              | .ok min_lon =>
                let msg : Option String :=
                  if srs = s4326 then some polyFormatMsg
                  else if srs = s27700 then some polyFormatMsg
                  else none
                if min_lat > min_y ∧ max_lat < max_y then
                  if min_lon > min_x ∧ max_lon < max_x then .ok ()
                  else .error (pyAssertMsg msg (lonAssertPre min_x max_x))
                else .error (pyAssertMsg msg (latAssertPre min_y max_y))

/-- `validate_polygon_string` (api_utils.py lines 159-168). -/
def validate_polygon_string (polygon_string : Str) (srs : Str) : Except PyError Unit :=
  match validate_srs srs with
  | .error e => .error e
  | .ok _ =>
    if srs = s4326 then _validate_polygon_string polygon_string s4326 (-7) 2 49 61
    else if srs = s27700 then
      _validate_polygon_string polygon_string s27700 0 700000 0 1250000
    else .ok ()

/- ----------------------------------------------------------------- -/
/- GeoJSON features (api_utils.py lines 20-38, 121-132)              -/
/- ----------------------------------------------------------------- -/

/-- A JSON-style value as found under `geometry.coordinates`: a number (a
Python float) or an array.  Integer-typed JSON numbers are not distinguished
from floats; no verified property depends on the distinction. -/
inductive Val where
  | num (q : ℚ)
  | arr (l : List Val)

/-- A GeoJSON feature: `geometry.type` (absent when the feature is not in
standard GeoJSON shape), `geometry.coordinates`, and the `properties` value,
which the code only ever passes through and which is therefore modelled by an
arbitrary type `π`. -/
structure Feature (π : Type) where
  geometry_type : Option String
  coordinates : Val
  properties : π

/-- `get_feature_geometry_type` (api_utils.py lines 20-25): the `KeyError` of a
missing key path is re-raised as a generic exception. -/
def get_feature_geometry_type (feature : Feature π) : Except PyError String :=
  match feature.geometry_type with
  | some t => .ok t
  | none => .error (.exception "Feature is not in standard GeoJSON format.")

/-- `convert_single_feature_to_geojson` (api_utils.py lines 32-38): takes
`geometry.coordinates[0]`, wraps it as geometry of type `geometry_type`, and
re-attaches the original properties.  The Python default for `geometry_type`
is `LineString`; callers inside the module never override it. -/
def convert_single_feature_to_geojson (single_feature : Feature π)
    (geometry_type : String) : Except PyError (Feature π) :=
  match single_feature.coordinates with
  | .arr (c :: _) => .ok ⟨some geometry_type, c, single_feature.properties⟩
  | .arr [] => .error .indexError
  | .num _ => .error (.exception "TypeError: float object is not subscriptable")

/-- `convert_features_to_geojson` (api_utils.py lines 28-29): a list
comprehension over the features, with the default `geometry_type=LineString`. -/
def convert_features_to_geojson : List (Feature π) → Except PyError (List (Feature π))
  | [] => .ok []
  | feat :: feats =>
    match convert_single_feature_to_geojson feat "LineString" with
    | .error e => .error e
    | .ok g =>
      match convert_features_to_geojson feats with
      | .error e => .error e
      | .ok gs => .ok (g :: gs)

def wrongGeometryMsg : String :=
  "Geometry to fetch intersecting features is not a valid GeoJSON Polygon Feature"

/-- Python `str.lower()` (on the ASCII geometry-type names that occur here). -/
def pyLower (s : String) : String :=
  String.mk (s.data.map Char.toLower)

/-- `validate_geojson_polygon` (api_utils.py lines 121-124).  The Python
function body ends without a `return`, so on success it returns `None`,
modelled as `.ok none`. -/
def validate_geojson_polygon (geojson : Feature π) :
    Except PyError (Option (Feature π)) :=
  match get_feature_geometry_type geojson with
  | .error e => .error e
  | .ok geom_type =>
    if pyLower geom_type ≠ "polygon" then .error (.exception wrongGeometryMsg)
    else .ok none

/- ----------------------------------------------------------------- -/
/- Python float-to-string rendering, for geojson_polygon_to_string   -/
/- ----------------------------------------------------------------- -/

/-- Digits of a natural number, most significant first; fuel-structured so the
definition evaluates by kernel reduction (the fuel always suffices). -/
def natDigitsGo : Nat → Nat → List Char → List Char
  | 0, _, acc => acc
  | fuel + 1, n, acc =>
    if n = 0 then acc
    else natDigitsGo fuel (n / 10) (Char.ofNat (48 + n % 10) :: acc)

def natDigits (n : Nat) : List Char :=
  if n = 0 then ['0'] else natDigitsGo (n + 1) n []

def intRender (i : ℤ) : Str :=
  if i < 0 then '-' :: natDigits i.natAbs else natDigits i.natAbs

/-- The least number of decimal digits after the point needed to write `q`
exactly, when one exists (Python's `repr` of a float prints the shortest
decimal that recovers the value; on the decimal-valued rationals modelled here
that is the shortest exact decimal).  Denominators beyond `10^39` do not occur
in any verified statement. -/
def decExp (q : ℚ) : Option Nat :=
  (List.range 40).find? (fun k => q.den ∣ 10 ^ k)

def leftPad (c : Char) (n : Nat) (l : List Char) : List Char :=
  List.replicate (n - l.length) c ++ l

/-- Python `str()` on the float value `q`: integers render with a trailing
`.0`, other decimal values with their shortest exact decimal expansion.  The
final fallback (a denominator that is no power of ten, impossible for a value
produced by `float()` of a short decimal literal) renders as a fraction and is
never reached in any verified statement. -/
def numStr (q : ℚ) : Str :=
  match decExp q with
  | none => intRender q.num ++ '/' :: natDigits q.den
  | some 0 => intRender q.num ++ ".0".data
  | some (j + 1) =>
    let k := j + 1
    let padded := leftPad '0' (k + 1) (natDigits (q.num.natAbs * (10 ^ k / q.den)))
    (if q.num < 0 then ['-'] else []) ++
      padded.take (padded.length - k) ++ '.' :: padded.drop (padded.length - k)

/-- Python `str()` on a coordinate entry; fuel-structured for the (never
exercised) nested-array case, where Python renders a bracketed,
comma-space-separated list. -/
def pyStrValGo : Nat → Val → Str
  | _, .num q => numStr q
  | 0, .arr _ => []
  | fuel + 1, .arr l =>
    '[' :: List.intercalate (", ".data) (l.map (pyStrValGo fuel)) ++ [']']

def pyStrVal (v : Val) : Str := pyStrValGo 1000 v

/-- The inner expression of api_utils.py line 128 for one coordinate:
`','.join([str(yx) for yx in coord[::-1]])`. -/
def coordToString (coord : Val) : Except PyError Str :=
  match coord with
  | .num _ => .error (.exception "TypeError: float object is not reversible")
  | .arr yx => .ok (List.intercalate [','] (yx.reverse.map pyStrVal))

/-- `geojson_polygon_to_string` (api_utils.py lines 126-132): each coordinate
of the first ring is reversed (`coord[::-1]`), rendered and comma-joined, and
the coordinates are space-joined. -/
def geojson_polygon_to_string (geojson : Feature π) : Except PyError Str :=
  match geojson.coordinates with
  | .num _ => .error (.exception "TypeError: float object is not subscriptable")
  | .arr [] => .error .indexError
  | .arr (ring :: _) =>
    match ring with
    | .num _ => .error (.exception "TypeError: float object is not iterable")
    | .arr coords =>
      match mapME coordToString coords with
      | .error e => .error e
      | .ok polygon_coord_strings => .ok (List.intercalate [' '] polygon_coord_strings)

/- ----------------------------------------------------------------- -/
/- Spatial filter construction (api_utils.py lines 171-189)          -/
/- ----------------------------------------------------------------- -/

/-- The characters stripped by Python `str.strip()` with no argument. -/
def isPySpace (c : Char) : Bool :=
  c = ' ' || c = '\t' || c = '\n' || c = '\r' || c = '\x0b' || c = '\x0c'

/-- Python `line.strip()`. -/
def pyStrip (s : Str) : Str :=
  ((s.dropWhile isPySpace).reverse.dropWhile isPySpace).reverse

/-- The triple-quoted template of `create_polygon_filter` after
`.format(srs_num=..., poly_string=...)`, newlines and indentation exactly as
in the source. -/
def polygonFilterTemplate (srs_num poly_string : Str) : Str :=
  "<ogc:Filter>\n                <ogc:Intersects>\n                    <ogc:PropertyName>SHAPE</ogc:PropertyName>\n                    <gml:Polygon srsName=\"urn:ogc:def:crs:EPSG::".data ++
  srs_num ++
  "\">\n                        <gml:outerBoundaryIs>\n                            <gml:LinearRing>\n                                <gml:coordinates>".data ++
  poly_string ++
  "</gml:coordinates>\n                            </gml:LinearRing>\n                        </gml:outerBoundaryIs>\n                    </gml:Polygon>\n                </ogc:Intersects>\n            </ogc:Filter>".data

/-- `create_polygon_filter` (api_utils.py lines 171-189): substitutes
`srs.split(":")[1]` and the polygon string into the template, then joins the
stripped lines (`"".join([line.strip() for line in xml.split('\n')])`). -/
def create_polygon_filter (polygon_string : Str) (srs : Str) : Except PyError Str :=
  match pyIndex (splitOnChar ':' srs) 1 with
  | .error e => .error e
  | .ok srs_num =>
    let xml := polygonFilterTemplate srs_num polygon_string
    .ok (List.flatten ((splitOnChar '\n' xml).map pyStrip))

/- ----------------------------------------------------------------- -/
/- Derived definitions used in claim statements                      -/
/- ----------------------------------------------------------------- -/

/-- The wire text of a polygon whose vertices carry their two coordinate
tokens and token values: the vertex strings `tok1,tok2` joined by single
spaces. -/
def polyJoin (vs : List ((Str × ℚ) × (Str × ℚ))) : Str :=
  List.intercalate [' '] (vs.map fun v => v.1.1 ++ ',' :: v.2.1)

/-- The polygon wire text of a list of coordinate-value pairs, written in the
tokens produced by `numStr`: `a1,b1 a2,b2 ...`. -/
def polyTextOf (pairs : List (ℚ × ℚ)) : Str :=
  List.intercalate [' '] (pairs.map fun p => numStr p.1 ++ ',' :: numStr p.2)

/-- The spec's notion of a failure payload that explains the expected bbox
format: an `AssertionError` whose message ends with one of the two `msg`
hint texts of `_validate_bbox`. -/
def carriesBboxFormatHint (e : PyError) : Prop :=
  ∃ pre : String,
    e = .assertionError (pre ++ bboxMsg4326) ∨ e = .assertionError (pre ++ bboxMsg27700)

def fLine0 : Str := "<ogc:Filter>".data

def fLine1 : Str := "                <ogc:Intersects>".data

def fLine2 : Str := "                    <ogc:PropertyName>SHAPE</ogc:PropertyName>".data

def fLine3 (a : Str) : Str :=
  "                    <gml:Polygon srsName=\"urn:ogc:def:crs:EPSG::".data ++
    (a ++ "\">".data)

def fLine4 : Str := "                        <gml:outerBoundaryIs>".data

def fLine5 : Str := "                            <gml:LinearRing>".data

def fLine6 (b : Str) : Str :=
  "                                <gml:coordinates>".data ++
    (b ++ "</gml:coordinates>".data)

def fLine7 : Str := "                            </gml:LinearRing>".data

def fLine8 : Str := "                        </gml:outerBoundaryIs>".data

def fLine9 : Str := "                    </gml:Polygon>".data

def fLine10 : Str := "                </ogc:Intersects>".data

def fLine11 : Str := "            </ogc:Filter>".data

/-- The single-line filter output described by the spec: the stripped,
concatenated template with the numeric code and the polygon text substituted. -/
def filterOneLine (code poly : Str) : Str :=
  "<ogc:Filter><ogc:Intersects><ogc:PropertyName>SHAPE</ogc:PropertyName><gml:Polygon srsName=\"urn:ogc:def:crs:EPSG::".data ++
  (code ++ ("\"><gml:outerBoundaryIs><gml:LinearRing><gml:coordinates>".data ++
  (poly ++ "</gml:coordinates></gml:LinearRing></gml:outerBoundaryIs></gml:Polygon></ogc:Intersects></ogc:Filter>".data)))

/- ----------------------------------------------------------------- -/
/- Sanity checks on concrete inputs                                  -/
/- ----------------------------------------------------------------- -/

example : validate_bbox "50,1,51,1.5".data s4326 = .ok () := by decide

example : validate_bbox "49,1,51,1.5".data s4326 =
    .error (.assertionError (latAssertPre 49 61 ++ bboxMsg4326)) := by decide

example : validate_bbox "50,1".data s4326 = .error .indexError := by decide

example : validate_polygon_string "49.9,-1.1 50.1,-1.1 50.1,-0.9".data s4326 = .ok () := by
  decide

example : validate_polygon_string "49.9,-1.1 61,-1.1".data s4326 =
    .error (.assertionError (latAssertPre 49 61 ++ polyFormatMsg)) := by decide

example : validate_polygon_string "49.9,-1.1 50.1,-1.1".data "EPSG:3857".data =
    .error (.assertionError (srs_assertion_message "EPSG:3857".data)) := by decide

example : numStr (mkRat 3 2) = "1.5".data := by decide

example : numStr (mkRat (-11) 10) = "-1.1".data := by decide

example : numStr 50 = "50.0".data := by decide

example : numStr (mkRat 1 20) = "0.05".data := by decide

example : create_polygon_filter "49.9,-1.1 50.1,-1.1 50.1,-0.9 49.9,-0.9".data
    "EPSG:4326".data =
    .ok ("<ogc:Filter><ogc:Intersects><ogc:PropertyName>SHAPE</ogc:PropertyName><gml:Polygon srsName=\"urn:ogc:def:crs:EPSG::4326\"><gml:outerBoundaryIs><gml:LinearRing><gml:coordinates>49.9,-1.1 50.1,-1.1 50.1,-0.9 49.9,-0.9</gml:coordinates></gml:LinearRing></gml:outerBoundaryIs></gml:Polygon></ogc:Intersects></ogc:Filter>".data) := by
  decide

example : create_polygon_filter "1,2 3,4".data "nocolon".data = .error .indexError := by
  decide

/- ----------------------------------------------------------------- -/
/- Helper lemmas                                                     -/
/- ----------------------------------------------------------------- -/

theorem splitOnChar_ne_nil (c : Char) (s : Str) : splitOnChar c s ≠ [] :=
  List.splitOnP_ne_nil _ s

theorem splitOnChar_not_mem {c : Char} {s : Str} (h : c ∉ s) : splitOnChar c s = [s] := by
  unfold splitOnChar List.splitOn
  refine List.splitOnP_eq_single _ _ ?_
  intro x hx
  simp only [beq_iff_eq]
  intro hxc
  exact h (hxc ▸ hx)

theorem splitOnChar_first {c : Char} {x : Str} (h : c ∉ x) (y : Str) :
    splitOnChar c (x ++ c :: y) = x :: splitOnChar c y := by
  unfold splitOnChar List.splitOn
  refine List.splitOnP_first _ _ ?_ c (by simp) y
  intro a ha
  simp only [beq_iff_eq]
  intro hac
  exact h (hac ▸ ha)

theorem splitOnChar_intercalate {c : Char} {parts : List Str} (hne : parts ≠ [])
    (h : ∀ p ∈ parts, c ∉ p) :
    splitOnChar c (List.intercalate [c] parts) = parts := by
  unfold splitOnChar List.splitOn
  exact List.splitOn_intercalate _ c h hne

theorem intercalate_splitOnChar (c : Char) (s : Str) :
    List.intercalate [c] (splitOnChar c s) = s :=
  List.intercalate_splitOn _ c

theorem ratParseBody_one (neg : Bool) {rest ip : Str}
    (hsplit : splitOnChar '.' rest = [ip]) :
    ratParseBody neg rest =
      if ip ≠ [] ∧ ip.all Char.isDigit then
        some (mkRat (if neg then -(digitsVal ip : ℤ) else (digitsVal ip : ℤ)) 1)
      else none := by
  unfold ratParseBody
  rw [hsplit]

theorem ratParseBody_two (neg : Bool) {rest ip fp : Str}
    (hsplit : splitOnChar '.' rest = [ip, fp]) :
    ratParseBody neg rest =
      if (ip ++ fp) ≠ [] ∧ ip.all Char.isDigit ∧ fp.all Char.isDigit then
        some (mkRat
          (if neg then -((digitsVal ip : ℤ) * 10 ^ fp.length + (digitsVal fp : ℤ))
           else ((digitsVal ip : ℤ) * 10 ^ fp.length + (digitsVal fp : ℤ)))
          (10 ^ fp.length))
      else none := by
  unfold ratParseBody
  rw [hsplit]

theorem ratParseBody_more (neg : Bool) {rest ip fp x : Str} {xs : List Str}
    (hsplit : splitOnChar '.' rest = ip :: fp :: x :: xs) :
    ratParseBody neg rest = none := by
  unfold ratParseBody
  rw [hsplit]

theorem ratParse_cons_eq (c : Char) (r : Str) :
    ratParse (c :: r) =
      if c = '-' then ratParseBody true r
      else if c = '+' then ratParseBody false r
      else ratParseBody false (c :: r) := rfl

theorem ratParseBody_chars {neg : Bool} {rest : Str} {q : ℚ}
    (h : ratParseBody neg rest = some q) :
    ∀ ch ∈ rest, ch.isDigit = true ∨ ch = '.' := by
  have hrec := intercalate_splitOnChar '.' rest
  cases hsplit : splitOnChar '.' rest with
  | nil => exact absurd hsplit (splitOnChar_ne_nil _ _)
  | cons ip tl =>
    rw [hsplit] at hrec
    cases tl with
    | nil =>
      rw [ratParseBody_one neg hsplit] at h
      have hrest : rest = ip := by simpa [List.intercalate] using hrec.symm
      by_cases hg : ip ≠ [] ∧ ip.all Char.isDigit
      · intro ch hch
        left
        exact List.all_eq_true.mp hg.2 ch (hrest ▸ hch)
      · rw [if_neg hg] at h
        exact absurd h (by simp)
    | cons fp tl2 =>
      cases tl2 with
      | nil =>
        rw [ratParseBody_two neg hsplit] at h
        have hrest : rest = ip ++ '.' :: fp := by
          simpa [List.intercalate, List.intersperse] using hrec.symm
        by_cases hg : (ip ++ fp) ≠ [] ∧ ip.all Char.isDigit ∧ fp.all Char.isDigit
        · intro ch hch
          rw [hrest] at hch
          rcases List.mem_append.mp hch with hip | hfp
          · left
            exact List.all_eq_true.mp hg.2.1 ch hip
          · rcases List.mem_cons.mp hfp with hdot | hfp2
            · right
              exact hdot
            · left
              exact List.all_eq_true.mp hg.2.2 ch hfp2
        · rw [if_neg hg] at h
          exact absurd h (by simp)
      | cons x xs => exact absurd h (by rw [ratParseBody_more neg hsplit]; simp)

theorem ratParse_chars {t : Str} {q : ℚ} (h : ratParse t = some q) :
    ∀ ch ∈ t, ch.isDigit = true ∨ ch = '-' ∨ ch = '+' ∨ ch = '.' := by
  cases t with
  | nil => intro ch hch; exact absurd hch (List.not_mem_nil ch)
  | cons c r =>
    rw [ratParse_cons_eq] at h
    intro ch hch
    split_ifs at h with h1 h2
    · rcases List.mem_cons.mp hch with rfl | hr
      · right; left; exact h1
      · rcases ratParseBody_chars h ch hr with hd | hd
        · left; exact hd
        · right; right; right; exact hd
    · rcases List.mem_cons.mp hch with rfl | hr
      · right; right; left; exact h2
      · rcases ratParseBody_chars h ch hr with hd | hd
        · left; exact hd
        · right; right; right; exact hd
    · rcases ratParseBody_chars h ch hch with hd | hd
      · left; exact hd
      · right; right; right; exact hd

theorem ratParse_comma_not_mem {t : Str} {q : ℚ} (h : ratParse t = some q) :
    ',' ∉ t := by
  intro hmem
  rcases ratParse_chars h ',' hmem with hd | hd | hd | hd <;> simp_all

theorem ratParse_space_not_mem {t : Str} {q : ℚ} (h : ratParse t = some q) :
    ' ' ∉ t := by
  intro hmem
  rcases ratParse_chars h ' ' hmem with hd | hd | hd | hd <;> simp_all

theorem mapME_map_ok {α β γ : Type _} {l : List α} {g : α → β}
    {f : β → Except PyError γ} {hf : α → γ}
    (H : ∀ x ∈ l, f (g x) = .ok (hf x)) :
    mapME f (l.map g) = .ok (l.map hf) := by
  induction l with
  | nil => rfl
  | cons x xs ih =>
    have hx := H x (List.mem_cons_self x xs)
    have hxs := ih (fun y hy => H y (List.mem_cons_of_mem x hy))
    simp [mapME, hx, hxs]

theorem foldl_max_lt_iff (M : ℚ) (l : List ℚ) :
    ∀ h : ℚ, List.foldl max h l < M ↔ h < M ∧ ∀ x ∈ l, x < M := by
  induction l with
  | nil => intro h; simp
  | cons x xs ih =>
    intro h
    rw [List.foldl_cons, ih (max h x)]
    simp [max_lt_iff]
    tauto

theorem lt_foldl_min_iff (m : ℚ) (l : List ℚ) :
    ∀ h : ℚ, m < List.foldl min h l ↔ m < h ∧ ∀ x ∈ l, m < x := by
  induction l with
  | nil => intro h; simp
  | cons x xs ih =>
    intro h
    rw [List.foldl_cons, ih (min h x)]
    simp [lt_min_iff]
    tauto

theorem foldl_min_len_const (n : Nat) (l : List (List ℚ))
    (h : ∀ r ∈ l, r.length = n) :
    l.foldl (fun m row => min m row.length) n = n := by
  induction l with
  | nil => rfl
  | cons r rs ih =>
    rw [List.foldl_cons, h r (List.mem_cons_self r rs), min_self]
    exact ih (fun r' hr' => h r' (List.mem_cons_of_mem r hr'))

theorem pyIndex_eq_ok {α : Type _} {l : List α} {i : Nat} {x : α}
    (h : l[i]? = some x) : pyIndex l i = .ok x := by
  unfold pyIndex
  rw [h]

theorem pyFloat_eq_ok {t : Str} {q : ℚ} (h : ratParse t = some q) :
    pyFloat t = .ok q := by
  unfold pyFloat
  rw [h]

theorem pyZipStar_pairs (vs : List (ℚ × ℚ)) (hne : vs ≠ []) :
    pyZipStar (vs.map fun v => [v.1, v.2]) =
      [vs.map Prod.fst, vs.map Prod.snd] := by
  obtain ⟨v0, rest, rfl⟩ : ∃ v0 rest, vs = v0 :: rest := by
    cases vs with
    | nil => exact absurd rfl hne
    | cons v0 rest => exact ⟨v0, rest, rfl⟩
  simp only [List.map_cons, pyZipStar]
  have hfold : (rest.map fun v => [v.1, v.2]).foldl
      (fun m row => min m row.length) ([v0.1, v0.2] : List ℚ).length = 2 := by
    have : ([v0.1, v0.2] : List ℚ).length = 2 := rfl
    rw [this]
    refine foldl_min_len_const 2 _ ?_
    intro r hr
    rcases List.mem_map.mp hr with ⟨v, _, rfl⟩
    rfl
  rw [hfold]
  have hrange : List.range 2 = [0, 1] := rfl
  rw [hrange]
  simp [List.map_map, List.getD]

theorem evalPairCond_eval {l : List Str} {i j : Nat} {ti tj : Str}
    {a b lo hi : ℚ}
    (hgi : l[i]? = some ti) (hgj : l[j]? = some tj)
    (hpi : ratParse ti = some a) (hpj : ratParse tj = some b) :
    evalPairCond l i j lo hi =
      .ok (decide ((lo < a ∧ a < hi) ∧ (lo < b ∧ b < hi))) := by
  by_cases h1 : lo < a ∧ a < hi
  · by_cases h2 : lo < b ∧ b < hi
    · simp [evalPairCond, pyIndex_eq_ok hgi, pyIndex_eq_ok hgj,
        pyFloat_eq_ok hpi, pyFloat_eq_ok hpj, h1, h2]
    · simp [evalPairCond, pyIndex_eq_ok hgi, pyIndex_eq_ok hgj,
        pyFloat_eq_ok hpi, pyFloat_eq_ok hpj, h1, h2]
  · simp [evalPairCond, pyIndex_eq_ok hgi, pyFloat_eq_ok hpi, h1]

theorem _validate_bbox_eval {ta tb tc td : Str} {a b c d : ℚ}
    (ha : ratParse ta = some a) (hb : ratParse tb = some b)
    (hc : ratParse tc = some c) (hd : ratParse td = some d)
    (srs : Str) (mx Mx my My : ℚ) :
    _validate_bbox (ta ++ ',' :: (tb ++ ',' :: (tc ++ ',' :: td))) srs mx Mx my My =
      (if (my < a ∧ a < My) ∧ (my < c ∧ c < My) then
        if (mx < b ∧ b < Mx) ∧ (mx < d ∧ d < Mx) then .ok ()
        else .error (pyAssertMsg
          (if srs = s4326 then some bboxMsg4326
           else if srs = s27700 then some bboxMsg27700 else none)
          (lonAssertPre mx Mx))
      else .error (pyAssertMsg
          (if srs = s4326 then some bboxMsg4326
           else if srs = s27700 then some bboxMsg27700 else none)
          (latAssertPre my My))) := by
  have hsplit : splitOnChar ',' (ta ++ ',' :: (tb ++ ',' :: (tc ++ ',' :: td))) =
      [ta, tb, tc, td] := by
    rw [splitOnChar_first (ratParse_comma_not_mem ha),
      splitOnChar_first (ratParse_comma_not_mem hb),
      splitOnChar_first (ratParse_comma_not_mem hc),
      splitOnChar_not_mem (ratParse_comma_not_mem hd)]
  have h02 := @evalPairCond_eval [ta, tb, tc, td] 0 2 ta tc a c my My rfl rfl ha hc
  have h13 := @evalPairCond_eval [ta, tb, tc, td] 1 3 tb td b d mx Mx rfl rfl hb hd
  by_cases hC1 : (my < a ∧ a < My) ∧ (my < c ∧ c < My)
  · by_cases hC2 : (mx < b ∧ b < Mx) ∧ (mx < d ∧ d < Mx)
    · simp [_validate_bbox, hsplit, h02, h13, hC1, hC2]
    · simp [_validate_bbox, hsplit, h02, h13, hC1, hC2]
  · simp [_validate_bbox, hsplit, h02, hC1]

theorem parse_polygon_polyJoin {vs : List ((Str × ℚ) × (Str × ℚ))}
    (hne : vs ≠ [])
    (hv : ∀ v ∈ vs, ratParse v.1.1 = some v.1.2 ∧ ratParse v.2.1 = some v.2.2) :
    parse_polygon (polyJoin vs) = .ok (vs.map fun v => [v.1.2, v.2.2]) := by
  unfold parse_polygon polyJoin
  have hsplit : splitOnChar ' '
      (List.intercalate [' '] (vs.map fun v => v.1.1 ++ ',' :: v.2.1)) =
      vs.map fun v => v.1.1 ++ ',' :: v.2.1 := by
    refine splitOnChar_intercalate ?_ ?_
    · simp [hne]
    · intro p hp
      rcases List.mem_map.mp hp with ⟨v, hvmem, rfl⟩
      obtain ⟨h1, h2⟩ := hv v hvmem
      intro hsp
      rcases List.mem_append.mp hsp with hin | hin
      · exact ratParse_space_not_mem h1 hin
      · rcases List.mem_cons.mp hin with heq | hin2
        · exact absurd heq (by decide)
        · exact ratParse_space_not_mem h2 hin2
  rw [hsplit]
  refine mapME_map_ok ?_
  intro v hvmem
  obtain ⟨h1, h2⟩ := hv v hvmem
  have hsp : splitOnChar ',' (v.1.1 ++ ',' :: v.2.1) = [v.1.1, v.2.1] := by
    rw [splitOnChar_first (ratParse_comma_not_mem h1),
      splitOnChar_not_mem (ratParse_comma_not_mem h2)]
  rw [hsp]
  simp [mapME, pyFloat_eq_ok h1, pyFloat_eq_ok h2]

theorem _validate_polygon_eval {vs : List ((Str × ℚ) × (Str × ℚ))}
    (hne : vs ≠ [])
    (hv : ∀ v ∈ vs, ratParse v.1.1 = some v.1.2 ∧ ratParse v.2.1 = some v.2.2)
    (srs : Str) (mx Mx my My : ℚ) :
    _validate_polygon_string (polyJoin vs) srs mx Mx my My =
      (if ∀ v ∈ vs, my < v.1.2 ∧ v.1.2 < My then
        if ∀ v ∈ vs, mx < v.2.2 ∧ v.2.2 < Mx then .ok ()
        else .error (pyAssertMsg
          (if srs = s4326 then some polyFormatMsg
           else if srs = s27700 then some polyFormatMsg else none)
          (lonAssertPre mx Mx))
      else .error (pyAssertMsg
          (if srs = s4326 then some polyFormatMsg
           else if srs = s27700 then some polyFormatMsg else none)
          (latAssertPre my My))) := by
  obtain ⟨v0, rest, rfl⟩ : ∃ v0 rest, vs = v0 :: rest := by
    cases vs with
    | nil => exact absurd rfl hne
    | cons v0 rest => exact ⟨v0, rest, rfl⟩
  have hparse := parse_polygon_polyJoin hne hv
  have hzip : pyZipStar ((v0 :: rest).map fun v => [v.1.2, v.2.2]) =
      [(v0 :: rest).map fun v => v.1.2, (v0 :: rest).map fun v => v.2.2] := by
    have := pyZipStar_pairs ((v0 :: rest).map fun v => (v.1.2, v.2.2)) (by simp)
    simpa [List.map_map] using this
  simp only [List.map_cons] at hzip
  have hlat : ((rest.map fun v => v.1.2).foldl min v0.1.2 > my ∧
      (rest.map fun v => v.1.2).foldl max v0.1.2 < My) ↔
      ∀ v ∈ v0 :: rest, my < v.1.2 ∧ v.1.2 < My := by
    rw [gt_iff_lt, lt_foldl_min_iff, foldl_max_lt_iff]
    simp only [List.mem_map, forall_exists_index, and_imp, List.forall_mem_cons]
    constructor
    · rintro ⟨⟨hm0, hmr⟩, hM0, hMr⟩
      exact ⟨⟨hm0, hM0⟩, fun v hv' => ⟨hmr _ v hv' rfl, hMr _ v hv' rfl⟩⟩
    · rintro ⟨⟨hm0, hM0⟩, hr⟩
      exact ⟨⟨hm0, fun x v hv' hx => hx ▸ (hr v hv').1⟩,
        hM0, fun x v hv' hx => hx ▸ (hr v hv').2⟩
  have hlon : ((rest.map fun v => v.2.2).foldl min v0.2.2 > mx ∧
      (rest.map fun v => v.2.2).foldl max v0.2.2 < Mx) ↔
      ∀ v ∈ v0 :: rest, mx < v.2.2 ∧ v.2.2 < Mx := by
    rw [gt_iff_lt, lt_foldl_min_iff, foldl_max_lt_iff]
    simp only [List.mem_map, forall_exists_index, and_imp, List.forall_mem_cons]
    constructor
    · rintro ⟨⟨hm0, hmr⟩, hM0, hMr⟩
      exact ⟨⟨hm0, hM0⟩, fun v hv' => ⟨hmr _ v hv' rfl, hMr _ v hv' rfl⟩⟩
    · rintro ⟨⟨hm0, hM0⟩, hr⟩
      exact ⟨⟨hm0, fun x v hv' hx => hx ▸ (hr v hv').1⟩,
        hM0, fun x v hv' hx => hx ▸ (hr v hv').2⟩
  by_cases hA : ∀ v ∈ v0 :: rest, my < v.1.2 ∧ v.1.2 < My
  · by_cases hB : ∀ v ∈ v0 :: rest, mx < v.2.2 ∧ v.2.2 < Mx
    · simp [_validate_polygon_string, hparse, hzip, pyIndex, pyMax, pyMin,
        hlat.mpr hA, hlon.mpr hB]
      rw [if_pos hA, if_pos hB]
    · have hB' : ¬ ((rest.map fun v => v.2.2).foldl min v0.2.2 > mx ∧
          (rest.map fun v => v.2.2).foldl max v0.2.2 < Mx) := fun hcon => hB (hlon.mp hcon)
      simp [_validate_polygon_string, hparse, hzip, pyIndex, pyMax, pyMin,
        hlat.mpr hA, hB']
      rw [if_pos hA, if_neg hB]
  · have hA' : ¬ ((rest.map fun v => v.1.2).foldl min v0.1.2 > my ∧
        (rest.map fun v => v.1.2).foldl max v0.1.2 < My) := fun hcon => hA (hlat.mp hcon)
    simp [_validate_polygon_string, hparse, hzip, pyIndex, pyMax, pyMin, hA']
    rw [if_neg hA]

theorem validate_bbox_s4326 (s : Str) :
    validate_bbox s s4326 = _validate_bbox s s4326 (-7) 2 49 61 := rfl

theorem validate_bbox_s27700 (s : Str) :
    validate_bbox s s27700 = _validate_bbox s s27700 0 700000 0 1250000 := rfl

theorem validate_polygon_s4326 (s : Str) :
    validate_polygon_string s s4326 = _validate_polygon_string s s4326 (-7) 2 49 61 := rfl

theorem validate_polygon_s27700 (s : Str) :
    validate_polygon_string s s27700 =
      _validate_polygon_string s s27700 0 700000 0 1250000 := rfl

theorem evalPairCond_ok_true_iff {l : List Str} {i j : Nat} {lo hi : ℚ} :
    evalPairCond l i j lo hi = .ok true ↔
      ∃ ti a tj b, l[i]? = some ti ∧ ratParse ti = some a ∧
        (lo < a ∧ a < hi) ∧
        l[j]? = some tj ∧ ratParse tj = some b ∧ (lo < b ∧ b < hi) := by
  cases hgi : l[i]? with
  | none => simp [evalPairCond, pyIndex, pyFloat, hgi]
  | some ti =>
    cases hpi : ratParse ti with
    | none => simp [evalPairCond, pyIndex, pyFloat, hgi, hpi]
    | some a =>
      by_cases hra : lo < a ∧ a < hi
      · cases hgj : l[j]? with
        | none => simp [evalPairCond, pyIndex, pyFloat, hgi, hpi, hgj, hra]
        | some tj =>
          cases hpj : ratParse tj with
          | none => simp [evalPairCond, pyIndex, pyFloat, hgi, hpi, hgj, hpj, hra]
          | some b =>
            by_cases hrb : lo < b ∧ b < hi
            · simp [evalPairCond, pyIndex, pyFloat, hgi, hpi, hgj, hpj, hra, hrb]
            · simp [evalPairCond, pyIndex, pyFloat, hgi, hpi, hgj, hpj, hra, hrb]
      · simp [evalPairCond, pyIndex, pyFloat, hgi, hpi, hra]

theorem _validate_bbox_ok_iff {s srs : Str} {mx Mx my My : ℚ} :
    _validate_bbox s srs mx Mx my My = .ok () ↔
      evalPairCond (splitOnChar ',' s) 0 2 my My = .ok true ∧
      evalPairCond (splitOnChar ',' s) 1 3 mx Mx = .ok true := by
  unfold _validate_bbox
  cases h1 : evalPairCond (splitOnChar ',' s) 0 2 my My with
  | error e => simp [h1]
  | ok b1 =>
    cases b1 with
    | false => simp [h1]
    | true =>
      cases h2 : evalPairCond (splitOnChar ',' s) 1 3 mx Mx with
      | error e => simp [h1, h2]
      | ok b2 => cases b2 <;> simp [h1, h2]

theorem _validate_bbox_get_congr {s s' srs : Str} {mx Mx my My : ℚ}
    (h : ∀ i, i < 4 → (splitOnChar ',' s)[i]? = (splitOnChar ',' s')[i]?) :
    _validate_bbox s srs mx Mx my My = _validate_bbox s' srs mx Mx my My := by
  have hc1 : evalPairCond (splitOnChar ',' s) 0 2 my My =
      evalPairCond (splitOnChar ',' s') 0 2 my My := by
    unfold evalPairCond pyIndex
    rw [h 0 (by norm_num), h 2 (by norm_num)]
  have hc2 : evalPairCond (splitOnChar ',' s) 1 3 mx Mx =
      evalPairCond (splitOnChar ',' s') 1 3 mx Mx := by
    unfold evalPairCond pyIndex
    rw [h 1 (by norm_num), h 3 (by norm_num)]
  simp only [_validate_bbox]
  rw [hc1, hc2]

/- ----------------------------------------------------------------- -/
/- Claim theorems                                                    -/
/- ----------------------------------------------------------------- -/

/-- Claim C1: for both supported CRS, `validate_bbox` and
`validate_polygon_string` accept a coordinate set exactly when every
coordinate value lies strictly inside the CRS extent (EPSG:4326: axis-1
(longitude) in (-7, 2), axis-2 (latitude) in (49, 61); EPSG:27700: axis-1
(easting) in (0, 700000), axis-2 (northing) in (0, 1250000)); a value equal
to or outside a bound produces the `AssertionError` naming the axis whose
value offends (the axis-2 message when an axis-2 value offends, otherwise the
axis-1 message), so the bounds are exclusive, never inclusive.  The bbox
tokens appear in the order axis-2, axis-1, axis-2, axis-1 (lat, lon / northing,
easting), and each polygon vertex as axis-2,axis-1. -/
theorem bbox_polygon_extent_validation
    (ta tb tc td : Str) (a b c d : ℚ)
    (ha : ratParse ta = some a) (hb : ratParse tb = some b)
    (hc : ratParse tc = some c) (hd : ratParse td = some d)
    (vs : List ((Str × ℚ) × (Str × ℚ))) (hne : vs ≠ [])
    (hv : ∀ v ∈ vs, ratParse v.1.1 = some v.1.2 ∧ ratParse v.2.1 = some v.2.2) :
    (validate_bbox (ta ++ ',' :: (tb ++ ',' :: (tc ++ ',' :: td))) s4326 =
      if ((49:ℚ) < a ∧ a < 61) ∧ ((49:ℚ) < c ∧ c < 61) then
        if ((-7:ℚ) < b ∧ b < 2) ∧ ((-7:ℚ) < d ∧ d < 2) then .ok ()
        else .error (.assertionError (lonAssertPre (-7) 2 ++ bboxMsg4326))
      else .error (.assertionError (latAssertPre 49 61 ++ bboxMsg4326))) ∧
    (validate_bbox (ta ++ ',' :: (tb ++ ',' :: (tc ++ ',' :: td))) s27700 =
      if ((0:ℚ) < a ∧ a < 1250000) ∧ ((0:ℚ) < c ∧ c < 1250000) then
        if ((0:ℚ) < b ∧ b < 700000) ∧ ((0:ℚ) < d ∧ d < 700000) then .ok ()
        else .error (.assertionError (lonAssertPre 0 700000 ++ bboxMsg27700))
      else .error (.assertionError (latAssertPre 0 1250000 ++ bboxMsg27700))) ∧
    (validate_polygon_string (polyJoin vs) s4326 =
      if ∀ v ∈ vs, (49:ℚ) < v.1.2 ∧ v.1.2 < 61 then
        if ∀ v ∈ vs, (-7:ℚ) < v.2.2 ∧ v.2.2 < 2 then .ok ()
        else .error (.assertionError (lonAssertPre (-7) 2 ++ polyFormatMsg))
      else .error (.assertionError (latAssertPre 49 61 ++ polyFormatMsg))) ∧
    (validate_polygon_string (polyJoin vs) s27700 =
      if ∀ v ∈ vs, (0:ℚ) < v.1.2 ∧ v.1.2 < 1250000 then
        if ∀ v ∈ vs, (0:ℚ) < v.2.2 ∧ v.2.2 < 700000 then .ok ()
        else .error (.assertionError (lonAssertPre 0 700000 ++ polyFormatMsg))
      else .error (.assertionError (latAssertPre 0 1250000 ++ polyFormatMsg))) := by
  have hne47 : ¬ (s27700 = s4326) := by decide
  refine ⟨?_, ?_, ?_, ?_⟩
  · rw [validate_bbox_s4326, _validate_bbox_eval ha hb hc hd]
    simp [pyAssertMsg]
  · rw [validate_bbox_s27700, _validate_bbox_eval ha hb hc hd]
    simp [pyAssertMsg, hne47]
  · rw [validate_polygon_s4326, _validate_polygon_eval hne hv]
    simp [pyAssertMsg]
  · rw [validate_polygon_s27700, _validate_polygon_eval hne hv]
    simp [pyAssertMsg, hne47]

/-- Witness for C1 at concrete inputs. -/
theorem bbox_polygon_extent_validation_witness :
    validate_bbox ("50".data ++ ',' :: ("1".data ++ ',' :: ("50.5".data ++ ',' ::
      "1.5".data))) s4326 = .ok () ∧
    validate_bbox ("50".data ++ ',' :: ("1".data ++ ',' :: ("50.5".data ++ ',' ::
      "1.5".data))) s27700 = .ok () ∧
    validate_polygon_string (polyJoin [(("50".data, 50), ("1".data, 1)),
      (("50.5".data, mkRat 101 2), ("1.5".data, mkRat 3 2))]) s4326 = .ok () := by
  have h := bbox_polygon_extent_validation "50".data "1".data "50.5".data "1.5".data
    50 1 (mkRat 101 2) (mkRat 3 2) (by decide) (by decide) (by decide) (by decide)
    [(("50".data, 50), ("1".data, 1)),
      (("50.5".data, mkRat 101 2), ("1.5".data, mkRat 3 2))] (by decide) (by decide)
  obtain ⟨h1, h2, h3, _⟩ := h
  refine ⟨?_, ?_, ?_⟩
  · rw [h1]
    decide
  · rw [h2]
    decide
  · rw [h3]
    decide

/-- Claim C2: an unsupported CRS identifier makes both validators fail with
the `validate_srs` assertion, independently of the coordinate string, before
any coordinate parsing is attempted. -/
theorem unsupported_crs_rejected_first (srs : Str)
    (h : srs ∉ VALID_SPATIAL_REFERENCE_SYSTEMS) (bbox poly : Str) :
    validate_bbox bbox srs = .error (.assertionError (srs_assertion_message srs)) ∧
    validate_polygon_string poly srs =
      .error (.assertionError (srs_assertion_message srs)) := by
  have hs : validate_srs srs = .error (.assertionError (srs_assertion_message srs)) := by
    unfold validate_srs
    rw [if_neg h]
  constructor
  · unfold validate_bbox
    rw [hs]
  · unfold validate_polygon_string
    rw [hs]

/-- Witness for C2: EPSG:3857 with arbitrary, even malformed, inputs. -/
theorem unsupported_crs_rejected_first_witness :
    validate_bbox "not,even,numbers".data "EPSG:3857".data =
      .error (.assertionError (srs_assertion_message "EPSG:3857".data)) ∧
    validate_polygon_string "garbage".data "EPSG:3857".data =
      .error (.assertionError (srs_assertion_message "EPSG:3857".data)) :=
  unsupported_crs_rejected_first "EPSG:3857".data (by decide)
    "not,even,numbers".data "garbage".data

theorem _validate_bbox_ok_tokens {s srs : Str} {mx Mx my My : ℚ}
    (hok : _validate_bbox s srs mx Mx my My = .ok ()) :
    4 ≤ (splitOnChar ',' s).length ∧
      ∀ i, i < 4 → ∃ t q, (splitOnChar ',' s)[i]? = some t ∧ ratParse t = some q := by
  obtain ⟨h02, h13⟩ := _validate_bbox_ok_iff.mp hok
  obtain ⟨t0, a, t2, c, hg0, hp0, _, hg2, hp2, _⟩ := evalPairCond_ok_true_iff.mp h02
  obtain ⟨t1, b, t3, d, hg1, hp1, _, hg3, hp3, _⟩ := evalPairCond_ok_true_iff.mp h13
  constructor
  · have h3lt : 3 < (splitOnChar ',' s).length := (List.getElem?_eq_some.mp hg3).1
    omega
  · intro i hi
    interval_cases i
    · exact ⟨t0, a, hg0, hp0⟩
    · exact ⟨t1, b, hg1, hp1⟩
    · exact ⟨t2, c, hg2, hp2⟩
    · exact ⟨t3, d, hg3, hp3⟩

/-- Counterexample to C3: the bbox string `"50,1"` splits into fewer than 4
tokens, yet `validate_bbox` under EPSG:4326 fails with a bare `IndexError`
(the in-range first token passes the latitude check and indexing token 2
raises), which carries no explanation of the expected bbox format. -/
theorem malformed_bbox_bare_index_error :
    (splitOnChar ',' "50,1".data).length < 4 ∧
    validate_bbox "50,1".data s4326 = .error .indexError ∧
    ¬ carriesBboxFormatHint .indexError := by
  refine ⟨by decide, by decide, ?_⟩
  rintro ⟨pre, hcase | hcase⟩ <;> exact PyError.noConfusion hcase

/-- Claim C3 as amended: a bbox string with fewer than 4 comma-separated
tokens, or with a non-numeric token among the first four, always makes
`validate_bbox` under a supported CRS fail — but not always with the
format-explaining `AssertionError` the spec describes: depending on which
check is reached first the failure is an `IndexError`, a `ValueError`, or an
extent `AssertionError`. -/
theorem malformed_bbox_always_fails (s srs : Str)
    (hs : srs ∈ VALID_SPATIAL_REFERENCE_SYSTEMS)
    (hm : (splitOnChar ',' s).length < 4 ∨
      ∃ i, i < 4 ∧ ∃ t, (splitOnChar ',' s)[i]? = some t ∧ ratParse t = none) :
    validate_bbox s srs ≠ .ok () := by
  intro hok
  have hs' : srs = s4326 ∨ srs = s27700 := by
    simpa [VALID_SPATIAL_REFERENCE_SYSTEMS] using hs
  have htoks : 4 ≤ (splitOnChar ',' s).length ∧
      ∀ i, i < 4 → ∃ t q, (splitOnChar ',' s)[i]? = some t ∧ ratParse t = some q := by
    rcases hs' with rfl | rfl
    · rw [validate_bbox_s4326] at hok
      exact _validate_bbox_ok_tokens hok
    · rw [validate_bbox_s27700] at hok
      exact _validate_bbox_ok_tokens hok
  rcases hm with hlen | ⟨i, hi, t, hgt, hpt⟩
  · omega
  · obtain ⟨t', q, hgt', hpt'⟩ := htoks.2 i hi
    rw [hgt] at hgt'
    obtain rfl : t = t' := Option.some.injEq _ _ ▸ (by simpa using hgt')
    rw [hpt] at hpt'
    exact Option.noConfusion hpt'

/-- Witness for the amended C3 at concrete inputs: a 1-token string and a
4-token string with a non-numeric first token. -/
theorem malformed_bbox_always_fails_witness :
    validate_bbox "abc".data s4326 ≠ .ok () ∧
    validate_bbox "x,1,51,1".data s27700 ≠ .ok () := by
  constructor
  · exact malformed_bbox_always_fails "abc".data s4326 (by decide)
      (Or.inl (by decide))
  · exact malformed_bbox_always_fails "x,1,51,1".data s27700 (by decide)
      (Or.inr ⟨0, by decide, "x".data, by decide, by decide⟩)

/-- Claim C9: `validate_bbox` ignores every comma-separated token after the
fourth.  With more than 4 tokens the result is identical to validating only
the first four, and under each supported CRS it succeeds exactly when the
first four tokens are numeric and strictly inside the extent, whatever the
remaining tokens contain. -/
theorem validate_bbox_ignores_extra_tokens
    (t0 t1 t2 t3 : Str) (rest : List Str) (_hrest : rest ≠ [])
    (h0 : ',' ∉ t0) (h1 : ',' ∉ t1) (h2 : ',' ∉ t2) (h3 : ',' ∉ t3)
    (hr : ∀ t ∈ rest, ',' ∉ t)
    (srs : Str) (hs : srs ∈ VALID_SPATIAL_REFERENCE_SYSTEMS) :
    (validate_bbox (List.intercalate [','] (t0 :: t1 :: t2 :: t3 :: rest)) srs =
      validate_bbox (List.intercalate [','] [t0, t1, t2, t3]) srs) ∧
    (srs = s4326 →
      (validate_bbox (List.intercalate [','] (t0 :: t1 :: t2 :: t3 :: rest)) srs = .ok () ↔
        ∃ a b c d : ℚ, ratParse t0 = some a ∧ ratParse t1 = some b ∧
          ratParse t2 = some c ∧ ratParse t3 = some d ∧
          ((49 < a ∧ a < 61) ∧ (49 < c ∧ c < 61)) ∧
          ((-7 < b ∧ b < 2) ∧ (-7 < d ∧ d < 2)))) ∧
    (srs = s27700 →
      (validate_bbox (List.intercalate [','] (t0 :: t1 :: t2 :: t3 :: rest)) srs = .ok () ↔
        ∃ a b c d : ℚ, ratParse t0 = some a ∧ ratParse t1 = some b ∧
          ratParse t2 = some c ∧ ratParse t3 = some d ∧
          ((0 < a ∧ a < 1250000) ∧ (0 < c ∧ c < 1250000)) ∧
          ((0 < b ∧ b < 700000) ∧ (0 < d ∧ d < 700000)))) := by
  have hmemfull : ∀ p ∈ t0 :: t1 :: t2 :: t3 :: rest, ',' ∉ p := by
    intro p hp
    simp only [List.mem_cons] at hp
    rcases hp with rfl | rfl | rfl | rfl | hp
    · exact h0
    · exact h1
    · exact h2
    · exact h3
    · exact hr p hp
  have efull : splitOnChar ',' (List.intercalate [','] (t0 :: t1 :: t2 :: t3 :: rest)) =
      t0 :: t1 :: t2 :: t3 :: rest :=
    splitOnChar_intercalate (by simp) hmemfull
  have etake : splitOnChar ',' (List.intercalate [','] [t0, t1, t2, t3]) =
      [t0, t1, t2, t3] :=
    splitOnChar_intercalate (by simp)
      (by
        intro p hp
        simp only [List.mem_cons] at hp
        rcases hp with rfl | rfl | rfl | rfl | hp
        · exact h0
        · exact h1
        · exact h2
        · exact h3
        · exact absurd hp (List.not_mem_nil p))
  have hget : ∀ i, i < 4 →
      (splitOnChar ',' (List.intercalate [','] (t0 :: t1 :: t2 :: t3 :: rest)))[i]? =
      (splitOnChar ',' (List.intercalate [','] [t0, t1, t2, t3]))[i]? := by
    intro i hi
    rw [efull, etake]
    interval_cases i <;> simp
  have hs' : srs = s4326 ∨ srs = s27700 := by
    simpa [VALID_SPATIAL_REFERENCE_SYSTEMS] using hs
  refine ⟨?_, ?_, ?_⟩
  · rcases hs' with rfl | rfl
    · rw [validate_bbox_s4326, validate_bbox_s4326]
      exact _validate_bbox_get_congr hget
    · rw [validate_bbox_s27700, validate_bbox_s27700]
      exact _validate_bbox_get_congr hget
  · rintro rfl
    rw [validate_bbox_s4326, _validate_bbox_ok_iff, evalPairCond_ok_true_iff,
      evalPairCond_ok_true_iff, efull]
    simp only [List.getElem?_cons_zero, List.getElem?_cons_succ, Option.some.injEq]
    constructor
    · rintro ⟨⟨ti, a, tj, c, rfl, hpa, hra, rfl, hpc, hrc⟩,
        ⟨ti', b, tj', d, rfl, hpb, hrb, rfl, hpd, hrd⟩⟩
      exact ⟨a, b, c, d, hpa, hpb, hpc, hpd, ⟨hra, hrc⟩, hrb, hrd⟩
    · rintro ⟨a, b, c, d, hpa, hpb, hpc, hpd, ⟨hra, hrc⟩, hrb, hrd⟩
      exact ⟨⟨t0, a, t2, c, rfl, hpa, hra, rfl, hpc, hrc⟩,
        ⟨t1, b, t3, d, rfl, hpb, hrb, rfl, hpd, hrd⟩⟩
  · rintro rfl
    rw [validate_bbox_s27700, _validate_bbox_ok_iff, evalPairCond_ok_true_iff,
      evalPairCond_ok_true_iff, efull]
    simp only [List.getElem?_cons_zero, List.getElem?_cons_succ, Option.some.injEq]
    constructor
    · rintro ⟨⟨ti, a, tj, c, rfl, hpa, hra, rfl, hpc, hrc⟩,
        ⟨ti', b, tj', d, rfl, hpb, hrb, rfl, hpd, hrd⟩⟩
      exact ⟨a, b, c, d, hpa, hpb, hpc, hpd, ⟨hra, hrc⟩, hrb, hrd⟩
    · rintro ⟨a, b, c, d, hpa, hpb, hpc, hpd, ⟨hra, hrc⟩, hrb, hrd⟩
      exact ⟨⟨t0, a, t2, c, rfl, hpa, hra, rfl, hpc, hrc⟩,
        ⟨t1, b, t3, d, rfl, hpb, hrb, rfl, hpd, hrd⟩⟩

/-- Witness for C9: five tokens with non-numeric junk in the fifth position
still validate, and the result equals that of the first four tokens alone. -/
theorem validate_bbox_ignores_extra_tokens_witness :
    (validate_bbox (List.intercalate [','] ["50".data, "1".data, "51".data,
      "1.5".data, "junk!".data]) s4326 =
      validate_bbox (List.intercalate [','] ["50".data, "1".data, "51".data,
        "1.5".data]) s4326) ∧
    validate_bbox (List.intercalate [','] ["50".data, "1".data, "51".data,
      "1.5".data, "junk!".data]) s4326 = .ok () := by
  have h := validate_bbox_ignores_extra_tokens "50".data "1".data "51".data
    "1.5".data ["junk!".data] (by decide) (by decide) (by decide) (by decide)
    (by decide) (by decide) s4326 (by decide)
  refine ⟨h.1, ?_⟩
  exact (h.2.1 rfl).mpr ⟨50, 1, 51, mkRat 3 2, by decide, by decide, by decide,
    by decide, by decide, by decide⟩

/-- Claim C10: `validate_bbox` imposes no ordering between the two coordinate
pairs: each value is checked independently against the extent, so exchanging
the SW pair with the NE pair preserves acceptance, under either supported
CRS. -/
theorem validate_bbox_corner_order_immaterial
    (ta tb tc td : Str) (a b c d : ℚ)
    (ha : ratParse ta = some a) (hb : ratParse tb = some b)
    (hc : ratParse tc = some c) (hd : ratParse td = some d) :
    (((49 < a ∧ a < 61) ∧ (49 < c ∧ c < 61) ∧
      (-7 < b ∧ b < 2) ∧ (-7 < d ∧ d < 2)) →
      validate_bbox (ta ++ ',' :: (tb ++ ',' :: (tc ++ ',' :: td))) s4326 = .ok () ∧
      validate_bbox (tc ++ ',' :: (td ++ ',' :: (ta ++ ',' :: tb))) s4326 = .ok ()) ∧
    (((0 < a ∧ a < 1250000) ∧ (0 < c ∧ c < 1250000) ∧
      (0 < b ∧ b < 700000) ∧ (0 < d ∧ d < 700000)) →
      validate_bbox (ta ++ ',' :: (tb ++ ',' :: (tc ++ ',' :: td))) s27700 = .ok () ∧
      validate_bbox (tc ++ ',' :: (td ++ ',' :: (ta ++ ',' :: tb))) s27700 = .ok ()) := by
  constructor
  · rintro ⟨hra, hrc, hrb, hrd⟩
    constructor
    · rw [validate_bbox_s4326, _validate_bbox_eval ha hb hc hd]
      rw [if_pos ⟨hra, hrc⟩, if_pos ⟨hrb, hrd⟩]
    · rw [validate_bbox_s4326, _validate_bbox_eval hc hd ha hb]
      rw [if_pos ⟨hrc, hra⟩, if_pos ⟨hrd, hrb⟩]
  · rintro ⟨hra, hrc, hrb, hrd⟩
    constructor
    · rw [validate_bbox_s27700, _validate_bbox_eval ha hb hc hd]
      rw [if_pos ⟨hra, hrc⟩, if_pos ⟨hrb, hrd⟩]
    · rw [validate_bbox_s27700, _validate_bbox_eval hc hd ha hb]
      rw [if_pos ⟨hrc, hra⟩, if_pos ⟨hrd, hrb⟩]

/-- Witness for C10 at concrete corners. -/
theorem validate_bbox_corner_order_immaterial_witness :
    validate_bbox ("50".data ++ ',' :: ("1".data ++ ',' :: ("51".data ++ ',' ::
      "1.5".data))) s4326 = .ok () ∧
    validate_bbox ("51".data ++ ',' :: ("1.5".data ++ ',' :: ("50".data ++ ',' ::
      "1".data))) s4326 = .ok () :=
  (validate_bbox_corner_order_immaterial "50".data "1".data "51".data "1.5".data
    50 1 51 (mkRat 3 2) (by decide) (by decide) (by decide) (by decide)).1
    (by decide)

/-- Counterexample to C5: `convert_features_to_geojson` on a LineString-typed
feature produces a LineString-typed feature (the Python default
`geometry_type=LineString`), not a Polygon-typed one. -/
theorem convert_features_not_polygon_typed :
    ∃ g : Feature Nat,
      convert_features_to_geojson
        [(⟨some "LineString",
            .arr [.arr [.num 0, .num 0], .arr [.num 1, .num 1]], 7⟩ : Feature Nat)] =
        .ok [g] ∧
      g.geometry_type = some "LineString" ∧ g.geometry_type ≠ some "Polygon" :=
  ⟨⟨some "LineString", .arr [.num 0, .num 0], 7⟩, rfl, rfl, by decide⟩

/-- Claim C5 as amended: `convert_features_to_geojson` on N features whose
coordinates are nonempty arrays returns exactly N features in order, each
retaining its input feature's `properties` unchanged — but the output
features are LineString-typed (the function's default target geometry), not
Polygon-typed as the spec claims. -/
theorem convert_features_length_order_properties {π : Type}
    (fs : List (Feature π))
    (h : ∀ f ∈ fs, ∃ v l, f.coordinates = Val.arr (v :: l)) :
    ∃ out, convert_features_to_geojson fs = .ok out ∧
      out.length = fs.length ∧
      ∀ i, (hi : i < out.length) → (hif : i < fs.length) →
        (out.get ⟨i, hi⟩).geometry_type = some "LineString" ∧
        (out.get ⟨i, hi⟩).properties = (fs.get ⟨i, hif⟩).properties := by
  induction fs with
  | nil =>
    refine ⟨[], rfl, rfl, ?_⟩
    intro i hi hif
    exact absurd hi (by simp)
  | cons f fs ih =>
    obtain ⟨v, l, hcoord⟩ := h f (List.mem_cons_self f fs)
    obtain ⟨out, hout, hlen, hprops⟩ := ih (fun g hg => h g (List.mem_cons_of_mem f hg))
    refine ⟨⟨some "LineString", v, f.properties⟩ :: out, ?_, by simp [hlen], ?_⟩
    · simp [convert_features_to_geojson, convert_single_feature_to_geojson, hcoord, hout]
    · intro i hi hif
      cases i with
      | zero => exact ⟨rfl, rfl⟩
      | succ n =>
        simp only [List.get_cons_succ]
        exact hprops n (by simpa using hi) (by simpa using hif)

/-- Witness for the amended C5 on a concrete LineString feature. -/
theorem convert_features_length_order_properties_witness :
    ∃ out, convert_features_to_geojson
      [(⟨some "LineString",
          .arr [.arr [.num 0, .num 0], .arr [.num 1, .num 1]], 7⟩ : Feature Nat)] =
      .ok out ∧
    out.length = [(⟨some "LineString",
          .arr [.arr [.num 0, .num 0], .arr [.num 1, .num 1]], 7⟩ : Feature Nat)].length ∧
      ∀ i, (hi : i < out.length) →
        (hif : i < [(⟨some "LineString",
          .arr [.arr [.num 0, .num 0], .arr [.num 1, .num 1]], 7⟩ : Feature Nat)].length) →
        (out.get ⟨i, hi⟩).geometry_type = some "LineString" ∧
        (out.get ⟨i, hi⟩).properties =
          ([(⟨some "LineString",
            .arr [.arr [.num 0, .num 0], .arr [.num 1, .num 1]], 7⟩ :
              Feature Nat)].get ⟨i, hif⟩).properties :=
  convert_features_length_order_properties _
    (by
      intro f hf
      simp only [List.mem_singleton] at hf
      subst hf
      exact ⟨_, _, rfl⟩)

/-- Claim C6 as amended: `validate_geojson_polygon` succeeds exactly on
features whose present `geometry.type` is case-insensitively `"Polygon"`, and
otherwise raises the wrong-geometry exception — but on success it returns
`None`, not the input feature. -/
theorem validate_geojson_polygon_cases {π : Type} (f : Feature π) (t : String)
    (ht : f.geometry_type = some t) :
    (pyLower t = "polygon" → validate_geojson_polygon f = .ok none) ∧
    (pyLower t ≠ "polygon" →
      validate_geojson_polygon f = .error (.exception wrongGeometryMsg)) := by
  constructor <;> intro hcase <;>
    simp [validate_geojson_polygon, get_feature_geometry_type, ht, hcase]

/-- Witness for the amended C6: a Polygon feature succeeds (with `None`), a
LineString feature raises. -/
theorem validate_geojson_polygon_cases_witness :
    validate_geojson_polygon (⟨some "Polygon", .arr [], (0 : Nat)⟩ : Feature Nat) =
      .ok none ∧
    validate_geojson_polygon (⟨some "LineString", .arr [], (0 : Nat)⟩ : Feature Nat) =
      .error (.exception wrongGeometryMsg) := by
  constructor
  · exact (validate_geojson_polygon_cases _ "Polygon" rfl).1 (by decide)
  · exact (validate_geojson_polygon_cases _ "LineString" rfl).2 (by decide)

theorem length_modifyHead_eq {α : Type _} (f : α → α) (l : List α) :
    (l.modifyHead f).length = l.length := by
  cases l <;> simp [List.modifyHead]

theorem mem_iff_two_le_splitOnChar_length (c : Char) (s : Str) :
    c ∈ s ↔ 2 ≤ (splitOnChar c s).length := by
  induction s with
  | nil => simp [splitOnChar]
  | cons a as ih =>
    unfold splitOnChar List.splitOn at ih ⊢
    rw [List.splitOnP_cons]
    by_cases hac : a = c
    · subst hac
      have hpos : 0 < (as.splitOnP (· == a)).length :=
        List.length_pos.mpr (List.splitOnP_ne_nil _ as)
      simp only [beq_self_eq_true, if_true, List.length_cons, List.mem_cons]
      constructor
      · intro _
        omega
      · intro _
        exact Or.inl trivial
    · have hbeq : (a == c) = false := beq_eq_false_iff_ne.mpr hac
      rw [hbeq]
      simp only [Bool.false_eq_true, if_false, length_modifyHead_eq, List.mem_cons]
      constructor
      · intro hmem
        rcases hmem with heq | hmem
        · exact absurd heq.symm hac
        · exact ih.mp hmem
      · intro hlen
        exact Or.inr (ih.mpr hlen)

/-- Claim C8: `create_polygon_filter` returns normally exactly when its `srs`
argument contains a colon (the `srs.split(":")[1]` indexing fails otherwise
with an `IndexError`), and under the precondition that `srs` is one of the
supported identifiers that failure branch is unreachable. -/
theorem create_polygon_filter_totality (poly srs : Str) :
    ((∃ out, create_polygon_filter poly srs = .ok out) ↔ ':' ∈ srs) ∧
    (':' ∉ srs → create_polygon_filter poly srs = .error .indexError) ∧
    (srs ∈ VALID_SPATIAL_REFERENCE_SYSTEMS →
      ∃ out, create_polygon_filter poly srs = .ok out) := by
  have herr : ':' ∉ srs → create_polygon_filter poly srs = .error .indexError := by
    intro hmem
    unfold create_polygon_filter
    rw [splitOnChar_not_mem hmem]
    rfl
  have hok : ':' ∈ srs → ∃ out, create_polygon_filter poly srs = .ok out := by
    intro hmem
    have h2 : 2 ≤ (splitOnChar ':' srs).length :=
      (mem_iff_two_le_splitOnChar_length ':' srs).mp hmem
    have h1lt : 1 < (splitOnChar ':' srs).length := by omega
    obtain ⟨x, hx⟩ : ∃ x, (splitOnChar ':' srs)[1]? = some x :=
      ⟨_, List.getElem?_eq_getElem h1lt⟩
    unfold create_polygon_filter
    rw [pyIndex_eq_ok hx]
    exact ⟨_, rfl⟩
  refine ⟨⟨?_, hok⟩, herr, ?_⟩
  · rintro ⟨out, hout⟩
    by_contra hmem
    rw [herr hmem] at hout
    exact Except.noConfusion hout
  · intro hs
    have hs' : srs = s4326 ∨ srs = s27700 := by
      simpa [VALID_SPATIAL_REFERENCE_SYSTEMS] using hs
    refine hok ?_
    rcases hs' with rfl | rfl <;> decide

/-- Witness for C8 at concrete inputs. -/
theorem create_polygon_filter_totality_witness :
    (∃ out, create_polygon_filter "1,2".data "EPSG:4326".data = .ok out) ∧
    create_polygon_filter "1,2".data "nocolon".data = .error .indexError :=
  ⟨(create_polygon_filter_totality "1,2".data "EPSG:4326".data).1.mpr (by decide),
   (create_polygon_filter_totality "1,2".data "nocolon".data).2.1 (by decide)⟩

theorem dropWhile_replicate_space (n : Nat) (X : Str) :
    (List.replicate n ' ' ++ X).dropWhile isPySpace = X.dropWhile isPySpace := by
  induction n with
  | zero => simp
  | succ m ih =>
    simp only [List.replicate_succ, List.cons_append, List.dropWhile_cons,
      show isPySpace ' ' = true from rfl, if_true]
    exact ih

theorem pyStrip_indent_wrap (n : Nat) (mid : Str) (c d : Char)
    (hc : isPySpace c = false) (hd : isPySpace d = false) :
    pyStrip (List.replicate n ' ' ++ (c :: (mid ++ [d]))) = c :: (mid ++ [d]) := by
  unfold pyStrip
  rw [dropWhile_replicate_space]
  have h1 : (c :: (mid ++ [d])).dropWhile isPySpace = c :: (mid ++ [d]) := by
    simp [List.dropWhile_cons, hc]
  rw [h1]
  have h2 : (c :: (mid ++ [d])).reverse = d :: (mid.reverse ++ [c]) := by simp
  rw [h2]
  have h3 : (d :: (mid.reverse ++ [c])).dropWhile isPySpace =
      d :: (mid.reverse ++ [c]) := by
    simp [List.dropWhile_cons, hd]
  rw [h3]
  simp

theorem polygonFilterTemplate_decomp (a b : Str) :
    polygonFilterTemplate a b =
      fLine0 ++ '\n' :: (fLine1 ++ '\n' :: (fLine2 ++ '\n' :: (fLine3 a ++ '\n' ::
      (fLine4 ++ '\n' :: (fLine5 ++ '\n' :: (fLine6 b ++ '\n' :: (fLine7 ++ '\n' ::
      (fLine8 ++ '\n' :: (fLine9 ++ '\n' :: (fLine10 ++ '\n' :: fLine11)))))))))) := by
  simp only [polygonFilterTemplate, fLine0, fLine1, fLine2, fLine3, fLine4, fLine5,
    fLine6, fLine7, fLine8, fLine9, fLine10, fLine11, List.append_assoc,
    List.cons_append]
  rfl

theorem splitOnChar_template {a b : Str} (ha : '\n' ∉ a) (hb : '\n' ∉ b) :
    splitOnChar '\n' (polygonFilterTemplate a b) =
      [fLine0, fLine1, fLine2, fLine3 a, fLine4, fLine5, fLine6 b, fLine7,
        fLine8, fLine9, fLine10, fLine11] := by
  have h3 : '\n' ∉ fLine3 a := by
    unfold fLine3
    intro hmem
    rcases List.mem_append.mp hmem with h' | h'
    · exact absurd h' (by decide)
    · rcases List.mem_append.mp h' with h'' | h''
      · exact ha h''
      · exact absurd h'' (by decide)
  have h6 : '\n' ∉ fLine6 b := by
    unfold fLine6
    intro hmem
    rcases List.mem_append.mp hmem with h' | h'
    · exact absurd h' (by decide)
    · rcases List.mem_append.mp h' with h'' | h''
      · exact hb h''
      · exact absurd h'' (by decide)
  rw [polygonFilterTemplate_decomp,
    splitOnChar_first (show ('\n' : Char) ∉ fLine0 by decide),
    splitOnChar_first (show ('\n' : Char) ∉ fLine1 by decide),
    splitOnChar_first (show ('\n' : Char) ∉ fLine2 by decide),
    splitOnChar_first h3,
    splitOnChar_first (show ('\n' : Char) ∉ fLine4 by decide),
    splitOnChar_first (show ('\n' : Char) ∉ fLine5 by decide),
    splitOnChar_first h6,
    splitOnChar_first (show ('\n' : Char) ∉ fLine7 by decide),
    splitOnChar_first (show ('\n' : Char) ∉ fLine8 by decide),
    splitOnChar_first (show ('\n' : Char) ∉ fLine9 by decide),
    splitOnChar_first (show ('\n' : Char) ∉ fLine10 by decide),
    splitOnChar_not_mem (show ('\n' : Char) ∉ fLine11 by decide)]

theorem pyStrip_fLine3 (a : Str) :
    pyStrip (fLine3 a) =
      "<gml:Polygon srsName=\"urn:ogc:def:crs:EPSG::".data ++ (a ++ "\">".data) := by
  have e3 : fLine3 a = List.replicate 20 ' ' ++
      ('<' :: (("gml:Polygon srsName=\"urn:ogc:def:crs:EPSG::".data ++
        (a ++ ['"'])) ++ ['>'])) := by
    simp only [fLine3, List.append_assoc, List.cons_append, List.singleton_append]
    rfl
  have e3' : ('<' :: (("gml:Polygon srsName=\"urn:ogc:def:crs:EPSG::".data ++
      (a ++ ['"'])) ++ ['>'])) =
      "<gml:Polygon srsName=\"urn:ogc:def:crs:EPSG::".data ++ (a ++ "\">".data) := by
    simp only [List.append_assoc, List.cons_append, List.singleton_append]
    rfl
  rw [e3, pyStrip_indent_wrap 20 _ '<' '>' (by decide) (by decide), e3']

theorem pyStrip_fLine6 (b : Str) :
    pyStrip (fLine6 b) =
      "<gml:coordinates>".data ++ (b ++ "</gml:coordinates>".data) := by
  have e6 : fLine6 b = List.replicate 32 ' ' ++
      ('<' :: (("gml:coordinates>".data ++ (b ++ "</gml:coordinates".data)) ++ ['>'])) := by
    simp only [fLine6, List.append_assoc, List.cons_append, List.singleton_append]
    rfl
  have e6' : ('<' :: (("gml:coordinates>".data ++
      (b ++ "</gml:coordinates".data)) ++ ['>'])) =
      "<gml:coordinates>".data ++ (b ++ "</gml:coordinates>".data) := by
    simp only [List.append_assoc, List.cons_append, List.singleton_append]
    rfl
  rw [e6, pyStrip_indent_wrap 32 _ '<' '>' (by decide) (by decide), e6']

/-- Claim C4 as amended: for every polygon string and EPSG code free of
newlines (and colon-free code, as a code is), `create_polygon_filter` returns
the fixed template with each line stripped and concatenated: a single-line
XML string (no newline characters) with `srsName="urn:ogc:def:crs:EPSG::<code>"`
and the polygon string appearing verbatim between the coordinates tags.  The
spec's quantification over every polygon string must exclude strings with
newlines, which the whitespace tidying mangles (see the counterexample). -/
theorem create_polygon_filter_output (poly code : Str)
    (hp : '\n' ∉ poly) (hcc : ':' ∉ code) (hcn : '\n' ∉ code) :
    create_polygon_filter poly ("EPSG:".data ++ code) =
      .ok (filterOneLine code poly) ∧
    '\n' ∉ filterOneLine code poly := by
  constructor
  · have hsrs : splitOnChar ':' ("EPSG:".data ++ code) = ["EPSG".data, code] := by
      have hre : "EPSG:".data ++ code = "EPSG".data ++ ':' :: code := rfl
      rw [hre, splitOnChar_first (by decide), splitOnChar_not_mem hcc]
    simp only [create_polygon_filter, hsrs,
      pyIndex_eq_ok (show (["EPSG".data, code] : List Str)[1]? = some code from rfl)]
    rw [splitOnChar_template hcn hp]
    simp only [List.map_cons, List.map_nil, pyStrip_fLine3, pyStrip_fLine6,
      show pyStrip fLine0 = "<ogc:Filter>".data by decide,
      show pyStrip fLine1 = "<ogc:Intersects>".data by decide,
      show pyStrip fLine2 = "<ogc:PropertyName>SHAPE</ogc:PropertyName>".data by decide,
      show pyStrip fLine4 = "<gml:outerBoundaryIs>".data by decide,
      show pyStrip fLine5 = "<gml:LinearRing>".data by decide,
      show pyStrip fLine7 = "</gml:LinearRing>".data by decide,
      show pyStrip fLine8 = "</gml:outerBoundaryIs>".data by decide,
      show pyStrip fLine9 = "</gml:Polygon>".data by decide,
      show pyStrip fLine10 = "</ogc:Intersects>".data by decide,
      show pyStrip fLine11 = "</ogc:Filter>".data by decide]
    simp only [List.flatten_cons, List.flatten_nil, List.append_nil,
      List.append_assoc, filterOneLine]
    rfl
  · intro hmem
    unfold filterOneLine at hmem
    rcases List.mem_append.mp hmem with h' | h'
    · exact absurd h' (by decide)
    · rcases List.mem_append.mp h' with h'' | h''
      · exact hcn h''
      · rcases List.mem_append.mp h'' with h3 | h3
        · exact absurd h3 (by decide)
        · rcases List.mem_append.mp h3 with h4 | h4
          · exact hp h4
          · exact absurd h4 (by decide)

/-- Witness for the amended C4 at the spec's concrete example. -/
theorem create_polygon_filter_output_witness :
    create_polygon_filter "49.9,-1.1 50.1,-1.1 50.1,-0.9 49.9,-0.9".data
      ("EPSG:".data ++ "4326".data) =
      .ok (filterOneLine "4326".data
        "49.9,-1.1 50.1,-1.1 50.1,-0.9 49.9,-0.9".data) ∧
    '\n' ∉ filterOneLine "4326".data
      "49.9,-1.1 50.1,-1.1 50.1,-0.9 49.9,-0.9".data :=
  create_polygon_filter_output "49.9,-1.1 50.1,-1.1 50.1,-0.9 49.9,-0.9".data
    "4326".data (by decide) (by decide) (by decide)

/-- Counterexample to C4: a polygon string containing a newline does not
appear verbatim in the output — the whitespace tidying deletes the newline,
so the polygon string `"a\nb"` reaches the output as `"ab"`, refuting the
claim's quantification over every polygon string. -/
theorem polygon_filter_newline_not_verbatim :
    create_polygon_filter "a\nb".data "EPSG:4326".data =
      .ok "<ogc:Filter><ogc:Intersects><ogc:PropertyName>SHAPE</ogc:PropertyName><gml:Polygon srsName=\"urn:ogc:def:crs:EPSG::4326\"><gml:outerBoundaryIs><gml:LinearRing><gml:coordinates>ab</gml:coordinates></gml:LinearRing></gml:outerBoundaryIs></gml:Polygon></ogc:Intersects></ogc:Filter>".data ∧
    ¬ List.IsInfix ("<gml:coordinates>a\nb</gml:coordinates>".data)
      "<ogc:Filter><ogc:Intersects><ogc:PropertyName>SHAPE</ogc:PropertyName><gml:Polygon srsName=\"urn:ogc:def:crs:EPSG::4326\"><gml:outerBoundaryIs><gml:LinearRing><gml:coordinates>ab</gml:coordinates></gml:LinearRing></gml:outerBoundaryIs></gml:Polygon></ogc:Intersects></ogc:Filter>".data := by
  constructor
  · decide
  · intro hinf
    exact absurd (hinf.subset (show ('\n' : Char) ∈
        "<gml:coordinates>a\nb</gml:coordinates>".data by decide))
      (by decide)

theorem geojson_polygon_to_string_pairs (qs : List (ℚ × ℚ)) (rest : List Val)
    (props : ℚ) (gt : Option String) :
    geojson_polygon_to_string
      (⟨gt, .arr (.arr (qs.map fun p => .arr [.num p.1, .num p.2]) :: rest),
        props⟩ : Feature ℚ) =
      .ok (List.intercalate [' '] (qs.map fun p => numStr p.2 ++ ',' :: numStr p.1)) := by
  have hmap : mapME coordToString (qs.map fun p => Val.arr [.num p.1, .num p.2]) =
      .ok (qs.map fun p : ℚ × ℚ => numStr p.2 ++ ',' :: numStr p.1) := by
    refine mapME_map_ok ?_
    intro p _
    simp [coordToString, List.intercalate, List.intersperse, pyStrVal, pyStrValGo]
  unfold geojson_polygon_to_string
  dsimp only
  rw [hmap]

theorem pairs_ne_nil_of_three_le {pairs : List (ℚ × ℚ)} (h3 : 3 ≤ pairs.length) :
    pairs ≠ [] := by
  intro hnil
  rw [hnil] at h3
  simp at h3

/-- Claim C7 as amended: `geojson_polygon_to_string` emits each two-element
numeric coordinate pair of the outer ring axis-reversed, the two rendered
values joined by `,` and the pairs joined by single spaces.  The axis
reversal is applied only in the formatting direction — the parse applies
none — so the round trip string → `parse_polygon` → format reproduces the
original text (for rings of at least 3 vertices whose tokens are canonical
float renderings) only when the parsed ring is axis-reversed once more before
formatting; without that extra reversal the round trip swaps each pair (see
the counterexample). -/
theorem polygon_string_format_and_roundtrip
    (pairs : List (ℚ × ℚ)) (h3 : 3 ≤ pairs.length)
    (hcan : ∀ p ∈ pairs,
      ratParse (numStr p.1) = some p.1 ∧ ratParse (numStr p.2) = some p.2) :
    (∀ (qs : List (ℚ × ℚ)) (rest : List Val) (props : ℚ) (gt : Option String),
      geojson_polygon_to_string
        (⟨gt, .arr (.arr (qs.map fun p => .arr [.num p.1, .num p.2]) :: rest),
          props⟩ : Feature ℚ) =
        .ok (List.intercalate [' ']
          (qs.map fun p => numStr p.2 ++ ',' :: numStr p.1))) ∧
    parse_polygon (polyTextOf pairs) = .ok (pairs.map fun p => [p.1, p.2]) ∧
    geojson_polygon_to_string
      (⟨some "Polygon",
        .arr [.arr (pairs.map fun p => .arr [.num p.2, .num p.1])],
        (0 : ℚ)⟩ : Feature ℚ) = .ok (polyTextOf pairs) := by
  refine ⟨geojson_polygon_to_string_pairs, ?_, ?_⟩
  · have hjoin : polyTextOf pairs =
        polyJoin (pairs.map fun p => ((numStr p.1, p.1), (numStr p.2, p.2))) := by
      simp only [polyTextOf, polyJoin, List.map_map]
      rfl
    rw [hjoin, parse_polygon_polyJoin ?hne ?hv]
    · simp only [List.map_map]
      rfl
    case hne =>
      simp only [ne_eq, List.map_eq_nil_iff]
      exact pairs_ne_nil_of_three_le h3
    case hv =>
      intro v hv'
      rcases List.mem_map.mp hv' with ⟨p, hp, rfl⟩
      exact hcan p hp
  · have h1 := geojson_polygon_to_string_pairs (pairs.map fun p => (p.2, p.1)) []
      0 (some "Polygon")
    simp only [List.map_map] at h1
    rw [show ((fun p : ℚ × ℚ => Val.arr [Val.num p.1, Val.num p.2]) ∘
        fun p : ℚ × ℚ => (p.2, p.1)) =
        (fun p : ℚ × ℚ => Val.arr [Val.num p.2, Val.num p.1]) from rfl] at h1
    rw [show ((fun p : ℚ × ℚ => numStr p.2 ++ ',' :: numStr p.1) ∘
        fun p : ℚ × ℚ => (p.2, p.1)) =
        (fun p : ℚ × ℚ => numStr p.1 ++ ',' :: numStr p.2) from rfl] at h1
    exact h1

/-- Witness for the amended C7 on a concrete three-vertex ring. -/
theorem polygon_string_format_and_roundtrip_witness :
    parse_polygon (polyTextOf [(mkRat 3 2, mkRat 5 2), (mkRat 7 2, mkRat 9 2),
      (mkRat 11 2, mkRat 13 2)]) =
      .ok [[mkRat 3 2, mkRat 5 2], [mkRat 7 2, mkRat 9 2],
        [mkRat 11 2, mkRat 13 2]] ∧
    geojson_polygon_to_string
      (⟨some "Polygon",
        .arr [.arr [.arr [.num (mkRat 5 2), .num (mkRat 3 2)],
          .arr [.num (mkRat 9 2), .num (mkRat 7 2)],
          .arr [.num (mkRat 13 2), .num (mkRat 11 2)]]],
        (0 : ℚ)⟩ : Feature ℚ) =
      .ok (polyTextOf [(mkRat 3 2, mkRat 5 2), (mkRat 7 2, mkRat 9 2),
        (mkRat 11 2, mkRat 13 2)]) := by
  obtain ⟨_, h2, h3⟩ := polygon_string_format_and_roundtrip
    [(mkRat 3 2, mkRat 5 2), (mkRat 7 2, mkRat 9 2), (mkRat 11 2, mkRat 13 2)]
    (by decide) (by decide)
  exact ⟨by simpa using h2, by simpa using h3⟩

/-- Counterexample to C7: the round trip string → `parse_polygon` → format
does not reproduce the original text: formatting reverses each pair once
(giving the swapped text), and even re-reversing before formatting
normalises the integer-form tokens `"1"` to `"1.0"`, so neither composition
reproduces `"1,2 3,4 5,6"`. -/
theorem polygon_string_roundtrip_fails :
    parse_polygon "1,2 3,4 5,6".data = .ok [[1, 2], [3, 4], [5, 6]] ∧
    geojson_polygon_to_string (⟨some "Polygon",
      .arr [.arr [.arr [.num 1, .num 2], .arr [.num 3, .num 4],
        .arr [.num 5, .num 6]]], (0 : ℚ)⟩ : Feature ℚ) =
      .ok "2.0,1.0 4.0,3.0 6.0,5.0".data ∧
    "2.0,1.0 4.0,3.0 6.0,5.0".data ≠ "1,2 3,4 5,6".data ∧
    geojson_polygon_to_string (⟨some "Polygon",
      .arr [.arr [.arr [.num 2, .num 1], .arr [.num 4, .num 3],
        .arr [.num 6, .num 5]]], (0 : ℚ)⟩ : Feature ℚ) =
      .ok "1.0,2.0 3.0,4.0 5.0,6.0".data ∧
    "1.0,2.0 3.0,4.0 5.0,6.0".data ≠ "1,2 3,4 5,6".data := by
  exact ⟨by decide, by decide, by decide, by decide, by decide⟩

/-- Counterexample to C6: on a feature with `geometry.type = "Polygon"` the
function succeeds, but its return value is `None` (the Python function body
has no `return`), not the unmodified input feature. -/
theorem validate_geojson_polygon_returns_none :
    validate_geojson_polygon (⟨some "Polygon", .arr [], (7 : Nat)⟩ : Feature Nat) =
      .ok none ∧
    validate_geojson_polygon (⟨some "Polygon", .arr [], (7 : Nat)⟩ : Feature Nat) ≠
      .ok (some ⟨some "Polygon", .arr [], (7 : Nat)⟩) := by
  refine ⟨rfl, ?_⟩
  intro hcon
  rw [show validate_geojson_polygon (⟨some "Polygon", .arr [], (7 : Nat)⟩ : Feature Nat) =
    .ok none from rfl] at hcon
  simp at hcon
